import Mathlib

/-!
Verification of the GBA keypad module (`src/io/keypad.rs`).

The module is embedded shallowly: 16-bit machine words become `Nat` values
(kept below `2 ^ 16` by hypotheses where it matters), the volatile read of
the KEYINPUT register becomes an explicit `raw` parameter, and the
`register_bit!` accessor bodies — generated by a macro that lives outside
this fragment — are modelled from the spec's description of them.
-/

/-- Modelled from the spec: the getter produced by the `register_bit!` macro
(the macro body is not part of this fragment). It "returns true iff that
button's bit is set" in the 16-bit value. -/
def register_bit_get (val bit : Nat) : Bool :=
  (val &&& bit) != 0

/-- Modelled from the spec: the boolean setter produced by the
`register_bit!` macro (the macro body is not part of this fragment). It
"reads or writes that button's single bit within the 16-bit value, leaving
all other bits untouched": set by OR-ing the bit in, clear by AND-ing with
the 16-bit complement of the bit. -/
def register_bit_set (val bit : Nat) (b : Bool) : Nat :=
  if b then val ||| bit else val &&& (0xFFFF ^^^ bit)

/-- A "tribool" value helps us interpret the arrow pad. -/
inductive TriBool where
  | Minus
  | Neutral
  | Plus
deriving DecidableEq

/-- Records a particular key press combination (`newtype!` over `u16`,
high-active convention). -/
structure KeyInput where
  val : Nat
deriving DecidableEq

def KeyInput.A_BIT : Nat := 1

def KeyInput.B_BIT : Nat := 1 <<< 1

def KeyInput.SELECT_BIT : Nat := 1 <<< 2

def KeyInput.START_BIT : Nat := 1 <<< 3

def KeyInput.RIGHT_BIT : Nat := 1 <<< 4

def KeyInput.LEFT_BIT : Nat := 1 <<< 5

def KeyInput.UP_BIT : Nat := 1 <<< 6

def KeyInput.DOWN_BIT : Nat := 1 <<< 7

def KeyInput.R_BIT : Nat := 1 <<< 8

def KeyInput.L_BIT : Nat := 1 <<< 9

def KeyInput.a_pressed (s : KeyInput) : Bool := register_bit_get s.val KeyInput.A_BIT

def KeyInput.b_pressed (s : KeyInput) : Bool := register_bit_get s.val KeyInput.B_BIT

def KeyInput.select_pressed (s : KeyInput) : Bool := register_bit_get s.val KeyInput.SELECT_BIT

def KeyInput.start_pressed (s : KeyInput) : Bool := register_bit_get s.val KeyInput.START_BIT

def KeyInput.right_pressed (s : KeyInput) : Bool := register_bit_get s.val KeyInput.RIGHT_BIT

def KeyInput.left_pressed (s : KeyInput) : Bool := register_bit_get s.val KeyInput.LEFT_BIT

def KeyInput.up_pressed (s : KeyInput) : Bool := register_bit_get s.val KeyInput.UP_BIT

def KeyInput.down_pressed (s : KeyInput) : Bool := register_bit_get s.val KeyInput.DOWN_BIT

def KeyInput.r_pressed (s : KeyInput) : Bool := register_bit_get s.val KeyInput.R_BIT

def KeyInput.l_pressed (s : KeyInput) : Bool := register_bit_get s.val KeyInput.L_BIT

/-- Takes the set difference between these keys and another set of keys
(`KeyInput(self.0 ^ other.0)`). -/
def KeyInput.difference (s other : KeyInput) : KeyInput :=
  ⟨s.val ^^^ other.val⟩

/-- Gives the arrow pad value as a tribool, with Plus being increased column
value (right). -/
def KeyInput.column_direction (s : KeyInput) : TriBool :=
  if s.right_pressed then TriBool.Plus
  else if s.left_pressed then TriBool.Minus
  else TriBool.Neutral

/-- Gives the arrow pad value as a tribool, with Plus being increased row
value (down). -/
def KeyInput.row_direction (s : KeyInput) : TriBool :=
  if s.down_pressed then TriBool.Plus
  else if s.up_pressed then TriBool.Minus
  else TriBool.Neutral

/-- Gets the current state of the keys. The volatile read `KEYINPUT.read()`
is modelled by the explicit `raw` argument, the 16-bit value the register
read returns; the body is the source's `raw ^ 0b0000_0011_1111_1111`. -/
def read_key_input (raw : Nat) : KeyInput :=
  ⟨raw ^^^ 0b0000001111111111⟩

/-- Allows configuration of when a keypad interrupt fires (`newtype!` over
`u16`). -/
structure KeyInterruptSetting where
  val : Nat
deriving DecidableEq

/-- Modelled from the spec: the derived `Default` for the `u16` newtype
(the `newtype!` macro body is not part of this fragment); the spec says the
"default value is all-zero". -/
def KeyInterruptSetting.default : KeyInterruptSetting := ⟨0⟩

def KeyInterruptSetting.A_BIT : Nat := 1

def KeyInterruptSetting.B_BIT : Nat := 1 <<< 1

def KeyInterruptSetting.SELECT_BIT : Nat := 1 <<< 2

def KeyInterruptSetting.START_BIT : Nat := 1 <<< 3

def KeyInterruptSetting.RIGHT_BIT : Nat := 1 <<< 4

def KeyInterruptSetting.LEFT_BIT : Nat := 1 <<< 5

def KeyInterruptSetting.UP_BIT : Nat := 1 <<< 6

def KeyInterruptSetting.DOWN_BIT : Nat := 1 <<< 7

def KeyInterruptSetting.R_BIT : Nat := 1 <<< 8

def KeyInterruptSetting.L_BIT : Nat := 1 <<< 9

def KeyInterruptSetting.IRQ_ENABLE_BIT : Nat := 1 <<< 14

def KeyInterruptSetting.IRQ_AND_BIT : Nat := 1 <<< 15

def KeyInterruptSetting.a_pressed (c : KeyInterruptSetting) : Bool :=
  register_bit_get c.val KeyInterruptSetting.A_BIT

def KeyInterruptSetting.b_pressed (c : KeyInterruptSetting) : Bool :=
  register_bit_get c.val KeyInterruptSetting.B_BIT

def KeyInterruptSetting.select_pressed (c : KeyInterruptSetting) : Bool :=
  register_bit_get c.val KeyInterruptSetting.SELECT_BIT

def KeyInterruptSetting.start_pressed (c : KeyInterruptSetting) : Bool :=
  register_bit_get c.val KeyInterruptSetting.START_BIT

def KeyInterruptSetting.right_pressed (c : KeyInterruptSetting) : Bool :=
  register_bit_get c.val KeyInterruptSetting.RIGHT_BIT

def KeyInterruptSetting.left_pressed (c : KeyInterruptSetting) : Bool :=
  register_bit_get c.val KeyInterruptSetting.LEFT_BIT

def KeyInterruptSetting.up_pressed (c : KeyInterruptSetting) : Bool :=
  register_bit_get c.val KeyInterruptSetting.UP_BIT

def KeyInterruptSetting.down_pressed (c : KeyInterruptSetting) : Bool :=
  register_bit_get c.val KeyInterruptSetting.DOWN_BIT

def KeyInterruptSetting.r_pressed (c : KeyInterruptSetting) : Bool :=
  register_bit_get c.val KeyInterruptSetting.R_BIT

def KeyInterruptSetting.l_pressed (c : KeyInterruptSetting) : Bool :=
  register_bit_get c.val KeyInterruptSetting.L_BIT

def KeyInterruptSetting.irq_enabled (c : KeyInterruptSetting) : Bool :=
  register_bit_get c.val KeyInterruptSetting.IRQ_ENABLE_BIT

def KeyInterruptSetting.irq_logical_and (c : KeyInterruptSetting) : Bool :=
  register_bit_get c.val KeyInterruptSetting.IRQ_AND_BIT

def KeyInterruptSetting.set_a_pressed (c : KeyInterruptSetting) (b : Bool) : KeyInterruptSetting :=
  ⟨register_bit_set c.val KeyInterruptSetting.A_BIT b⟩

def KeyInterruptSetting.set_b_pressed (c : KeyInterruptSetting) (b : Bool) : KeyInterruptSetting :=
  ⟨register_bit_set c.val KeyInterruptSetting.B_BIT b⟩

def KeyInterruptSetting.set_select_pressed (c : KeyInterruptSetting) (b : Bool) : KeyInterruptSetting :=
  ⟨register_bit_set c.val KeyInterruptSetting.SELECT_BIT b⟩

def KeyInterruptSetting.set_start_pressed (c : KeyInterruptSetting) (b : Bool) : KeyInterruptSetting :=
  ⟨register_bit_set c.val KeyInterruptSetting.START_BIT b⟩

def KeyInterruptSetting.set_right_pressed (c : KeyInterruptSetting) (b : Bool) : KeyInterruptSetting :=
  ⟨register_bit_set c.val KeyInterruptSetting.RIGHT_BIT b⟩

def KeyInterruptSetting.set_left_pressed (c : KeyInterruptSetting) (b : Bool) : KeyInterruptSetting :=
  ⟨register_bit_set c.val KeyInterruptSetting.LEFT_BIT b⟩

def KeyInterruptSetting.set_up_pressed (c : KeyInterruptSetting) (b : Bool) : KeyInterruptSetting :=
  ⟨register_bit_set c.val KeyInterruptSetting.UP_BIT b⟩

def KeyInterruptSetting.set_down_pressed (c : KeyInterruptSetting) (b : Bool) : KeyInterruptSetting :=
  ⟨register_bit_set c.val KeyInterruptSetting.DOWN_BIT b⟩

def KeyInterruptSetting.set_r_pressed (c : KeyInterruptSetting) (b : Bool) : KeyInterruptSetting :=
  ⟨register_bit_set c.val KeyInterruptSetting.R_BIT b⟩

def KeyInterruptSetting.set_l_pressed (c : KeyInterruptSetting) (b : Bool) : KeyInterruptSetting :=
  ⟨register_bit_set c.val KeyInterruptSetting.L_BIT b⟩

def KeyInterruptSetting.set_irq_enabled (c : KeyInterruptSetting) (b : Bool) : KeyInterruptSetting :=
  ⟨register_bit_set c.val KeyInterruptSetting.IRQ_ENABLE_BIT b⟩

def KeyInterruptSetting.set_irq_logical_and (c : KeyInterruptSetting) (b : Bool) : KeyInterruptSetting :=
  ⟨register_bit_set c.val KeyInterruptSetting.IRQ_AND_BIT b⟩

/-- The ten buttons, in bit order. -/
inductive Button where
  | A
  | B
  | Select
  | Start
  | Right
  | Left
  | Up
  | Down
  | R
  | L
deriving DecidableEq

/-- The bit position of each button (A=0 .. L=9). -/
def Button.bit : Button → Nat
  | .A => 0
  | .B => 1
  | .Select => 2
  | .Start => 3
  | .Right => 4
  | .Left => 5
  | .Up => 6
  | .Down => 7
  | .R => 8
  | .L => 9

/-- Dispatch from a `Button` to the corresponding participation getter of
`KeyInterruptSetting`. -/
def KeyInterruptSetting.button_pressed (c : KeyInterruptSetting) : Button → Bool
  | .A => c.a_pressed
  | .B => c.b_pressed
  | .Select => c.select_pressed
  | .Start => c.start_pressed
  | .Right => c.right_pressed
  | .Left => c.left_pressed
  | .Up => c.up_pressed
  | .Down => c.down_pressed
  | .R => c.r_pressed
  | .L => c.l_pressed

/-- Dispatch from a `Button` to the corresponding participation setter of
`KeyInterruptSetting`. -/
def KeyInterruptSetting.set_button (c : KeyInterruptSetting) : Button → Bool → KeyInterruptSetting
  | .A, b => c.set_a_pressed b
  | .B, b => c.set_b_pressed b
  | .Select, b => c.set_select_pressed b
  | .Start, b => c.set_start_pressed b
  | .Right, b => c.set_right_pressed b
  | .Left, b => c.set_left_pressed b
  | .Up, b => c.set_up_pressed b
  | .Down, b => c.set_down_pressed b
  | .R, b => c.set_r_pressed b
  | .L, b => c.set_l_pressed b

/-! ### Helper lemmas about the modelled bit accessors -/

theorem register_bit_get_eq (val i : Nat) :
    register_bit_get val (1 <<< i) = val.testBit i := by
  unfold register_bit_get
  rw [Nat.one_shiftLeft, Nat.and_two_pow]
  cases h : val.testBit i <;> simp [(Nat.two_pow_pos i).ne']

theorem register_bit_set_true_testBit (val i j : Nat) :
    (register_bit_set val (1 <<< i) true).testBit j = (val.testBit j || decide (i = j)) := by
  unfold register_bit_set
  simp [Nat.one_shiftLeft, Nat.testBit_two_pow]

theorem register_bit_set_false_testBit (val i j : Nat) :
    (register_bit_set val (1 <<< i) false).testBit j =
      (val.testBit j && (decide (j < 16) ^^ decide (i = j))) := by
  unfold register_bit_set
  have h65535 : ∀ k, Nat.testBit 65535 k = decide (k < 16) := fun k => by
    rw [show (65535 : Nat) = 2 ^ 16 - 1 by norm_num]
    exact Nat.testBit_two_pow_sub_one 16 k
  rw [Nat.one_shiftLeft]
  simp [Nat.testBit_two_pow, h65535]

theorem testBit_of_lt_2_16 (val j : Nat) (hv : val < 65536) (hj : 16 ≤ j) :
    val.testBit j = false := by
  have e : (2 : Nat) ^ 16 = 65536 := by norm_num
  have h1 : val < 2 ^ 16 := e ▸ hv
  exact Nat.testBit_lt_two_pow (lt_of_lt_of_le h1 (Nat.pow_le_pow_right (by norm_num) hj))

theorem register_bit_set_frame (val i j : Nat) (b : Bool) (hv : val < 65536)
    (hij : i ≠ j) : (register_bit_set val (1 <<< i) b).testBit j = val.testBit j := by
  cases b
  · rw [register_bit_set_false_testBit]
    by_cases hj : j < 16
    · simp [hj, hij]
    · rw [testBit_of_lt_2_16 val j hv (le_of_not_lt hj)]
      simp
  · rw [register_bit_set_true_testBit]
    simp [hij]

theorem register_bit_set_get_same (val i : Nat) (b : Bool) (hi : i < 16) :
    register_bit_get (register_bit_set val (1 <<< i) b) (1 <<< i) = b := by
  rw [register_bit_get_eq]
  cases b
  · rw [register_bit_set_false_testBit]
    simp [hi]
  · rw [register_bit_set_true_testBit]
    simp

theorem button_bit_lt_16 (b : Button) : b.bit < 16 := by
  cases b <;> decide

theorem button_pressed_eq_get (c : KeyInterruptSetting) (b : Button) :
    c.button_pressed b = register_bit_get c.val (1 <<< b.bit) := by
  cases b <;> rfl

theorem set_button_eq_set (c : KeyInterruptSetting) (b : Button) (tf : Bool) :
    c.set_button b tf = ⟨register_bit_set c.val (1 <<< b.bit) tf⟩ := by
  cases b <;> rfl

theorem KeyInput.a_pressed_testBit (s : KeyInput) : s.a_pressed = s.val.testBit 0 :=
  register_bit_get_eq s.val 0

theorem KeyInput.b_pressed_testBit (s : KeyInput) : s.b_pressed = s.val.testBit 1 :=
  register_bit_get_eq s.val 1

theorem KeyInput.select_pressed_testBit (s : KeyInput) : s.select_pressed = s.val.testBit 2 :=
  register_bit_get_eq s.val 2

theorem KeyInput.start_pressed_testBit (s : KeyInput) : s.start_pressed = s.val.testBit 3 :=
  register_bit_get_eq s.val 3

theorem KeyInput.right_pressed_testBit (s : KeyInput) : s.right_pressed = s.val.testBit 4 :=
  register_bit_get_eq s.val 4

theorem KeyInput.left_pressed_testBit (s : KeyInput) : s.left_pressed = s.val.testBit 5 :=
  register_bit_get_eq s.val 5

theorem KeyInput.up_pressed_testBit (s : KeyInput) : s.up_pressed = s.val.testBit 6 :=
  register_bit_get_eq s.val 6

theorem KeyInput.down_pressed_testBit (s : KeyInput) : s.down_pressed = s.val.testBit 7 :=
  register_bit_get_eq s.val 7

theorem KeyInput.r_pressed_testBit (s : KeyInput) : s.r_pressed = s.val.testBit 8 :=
  register_bit_get_eq s.val 8

theorem KeyInput.l_pressed_testBit (s : KeyInput) : s.l_pressed = s.val.testBit 9 :=
  register_bit_get_eq s.val 9

theorem KeyInterruptSetting.irq_enabled_testBit (c : KeyInterruptSetting) :
    c.irq_enabled = c.val.testBit 14 :=
  register_bit_get_eq c.val 14

theorem KeyInterruptSetting.irq_logical_and_testBit (c : KeyInterruptSetting) :
    c.irq_logical_and = c.val.testBit 15 :=
  register_bit_get_eq c.val 15

theorem KeyInterruptSetting.button_pressed_testBit (c : KeyInterruptSetting) (b : Button) :
    c.button_pressed b = c.val.testBit b.bit := by
  rw [button_pressed_eq_get, register_bit_get_eq]

theorem button_bit_lt_10 (b : Button) : b.bit < 10 := by
  cases b <;> decide

theorem button_bit_inj (b1 b2 : Button) (h : b1.bit = b2.bit) : b1 = b2 := by
  cases b1 <;> cases b2 <;> revert h <;> decide

/-! ### Claim theorems -/

/-- C1 counterexample: the spec's end-to-end scenario is wrong about which
button the raw value `0b1111111101` encodes. Under the low-active
convention its clear bit is bit 1 (B), not bit 0 (A): `read_key_input`
yields a state where `a_pressed` is false and `b_pressed` is true. -/
theorem read_key_input_scenario_counterexample :
    (read_key_input 0b1111111101).a_pressed = false ∧
    (read_key_input 0b1111111101).b_pressed = true := by
  decide

/-- C1 (amended): `read_key_input` returns the `KeyInput` whose value is
the raw register value XOR `0x03FF`, so that for each of the ten button
bits the logical bit is the flip of the (low-active) raw bit; in
particular the raw value `0b1111111101` yields a state where `b_pressed`
is true and every other button query is false. -/
theorem read_key_input_spec (raw : Nat) :
    (read_key_input raw).val = raw ^^^ 0x03FF ∧
    (∀ i, i < 10 → (read_key_input raw).val.testBit i = !(raw.testBit i)) ∧
    ((read_key_input 0b1111111101).b_pressed = true ∧
      (read_key_input 0b1111111101).a_pressed = false ∧
      (read_key_input 0b1111111101).select_pressed = false ∧
      (read_key_input 0b1111111101).start_pressed = false ∧
      (read_key_input 0b1111111101).right_pressed = false ∧
      (read_key_input 0b1111111101).left_pressed = false ∧
      (read_key_input 0b1111111101).up_pressed = false ∧
      (read_key_input 0b1111111101).down_pressed = false ∧
      (read_key_input 0b1111111101).r_pressed = false ∧
      (read_key_input 0b1111111101).l_pressed = false) := by
  refine ⟨rfl, ?_, by decide⟩
  intro i hi
  show (raw ^^^ 1023).testBit i = !(raw.testBit i)
  rw [Nat.testBit_xor]
  have h1023 : Nat.testBit 1023 i = true := by
    rw [show (1023 : Nat) = 2 ^ 10 - 1 by norm_num, Nat.testBit_two_pow_sub_one]
    simpa using hi
  rw [h1023, Bool.xor_true]

/-- C1 witness: the bit-flip clause of `read_key_input_spec` evaluated at
raw value `0` and bit `0`. -/
theorem read_key_input_spec_witness :
    (read_key_input 0).val.testBit 0 = !((0 : Nat).testBit 0) :=
  (read_key_input_spec 0).2.1 0 (by decide)

/-- C2: each of the ten `KeyInput` accessors returns exactly the bit of
the underlying 16-bit value at that button's position (A=0, B=1, Select=2,
Start=3, Right=4, Left=5, Up=6, Down=7, R=8, L=9), regardless of all
other bits. -/
theorem keyinput_pressed_bits (s : KeyInput) :
    s.a_pressed = s.val.testBit 0 ∧
    s.b_pressed = s.val.testBit 1 ∧
    s.select_pressed = s.val.testBit 2 ∧
    s.start_pressed = s.val.testBit 3 ∧
    s.right_pressed = s.val.testBit 4 ∧
    s.left_pressed = s.val.testBit 5 ∧
    s.up_pressed = s.val.testBit 6 ∧
    s.down_pressed = s.val.testBit 7 ∧
    s.r_pressed = s.val.testBit 8 ∧
    s.l_pressed = s.val.testBit 9 :=
  ⟨s.a_pressed_testBit, s.b_pressed_testBit, s.select_pressed_testBit,
   s.start_pressed_testBit, s.right_pressed_testBit, s.left_pressed_testBit,
   s.up_pressed_testBit, s.down_pressed_testBit, s.r_pressed_testBit,
   s.l_pressed_testBit⟩

/-- C3: `difference` is bitwise XOR of the two underlying values
(changed-bits semantics); hence self-difference is the all-zero `KeyInput`
and `difference` is symmetric. -/
theorem difference_spec (x y : KeyInput) :
    (x.difference y).val = x.val ^^^ y.val ∧
    x.difference x = ⟨0⟩ ∧
    x.difference y = y.difference x := by
  refine ⟨rfl, ?_, ?_⟩
  · show (⟨x.val ^^^ x.val⟩ : KeyInput) = ⟨0⟩
    rw [Nat.xor_self]
  · show (⟨x.val ^^^ y.val⟩ : KeyInput) = ⟨y.val ^^^ x.val⟩
    rw [Nat.xor_comm]

/-- C4: the low-active-to-logical transform of `read_key_input` is an
involution: for every 16-bit value with bits 10–15 clear, applying the
transform twice gives the value back. -/
theorem logical_involution (r : Nat) (h1 : r < 65536) (h2 : r &&& 0xFC00 = 0) :
    read_key_input (read_key_input r).val = ⟨r⟩ :=
  congrArg KeyInput.mk (Nat.xor_cancel_right _ _)

/-- C4 witness: the involution evaluated at the concrete raw value `2`. -/
theorem logical_involution_witness :
    read_key_input (read_key_input 2).val = ⟨2⟩ :=
  logical_involution 2 (by decide) (by decide)

/-- C5: `column_direction` is Plus when Right is pressed (regardless of
Left), Minus when Right is not pressed but Left is, Neutral otherwise; and
symmetrically `row_direction` gives Down priority over Up; equivalently,
the two functions are determined by bits 4/5 and 7/6 with those
tie-breaks. -/
theorem direction_spec (s : KeyInput) :
    (s.right_pressed = true → s.column_direction = TriBool.Plus) ∧
    (s.right_pressed = false → s.left_pressed = true → s.column_direction = TriBool.Minus) ∧
    (s.right_pressed = false → s.left_pressed = false → s.column_direction = TriBool.Neutral) ∧
    (s.down_pressed = true → s.row_direction = TriBool.Plus) ∧
    (s.down_pressed = false → s.up_pressed = true → s.row_direction = TriBool.Minus) ∧
    (s.down_pressed = false → s.up_pressed = false → s.row_direction = TriBool.Neutral) ∧
    (s.column_direction =
      if s.val.testBit 4 then TriBool.Plus
      else if s.val.testBit 5 then TriBool.Minus
      else TriBool.Neutral) ∧
    (s.row_direction =
      if s.val.testBit 7 then TriBool.Plus
      else if s.val.testBit 6 then TriBool.Minus
      else TriBool.Neutral) := by
  refine ⟨?_, ?_, ?_, ?_, ?_, ?_, ?_, ?_⟩
  · intro h; simp [KeyInput.column_direction, h]
  · intro h1 h2; simp [KeyInput.column_direction, h1, h2]
  · intro h1 h2; simp [KeyInput.column_direction, h1, h2]
  · intro h; simp [KeyInput.row_direction, h]
  · intro h1 h2; simp [KeyInput.row_direction, h1, h2]
  · intro h1 h2; simp [KeyInput.row_direction, h1, h2]
  · rw [KeyInput.column_direction, s.right_pressed_testBit, s.left_pressed_testBit]
  · rw [KeyInput.row_direction, s.down_pressed_testBit, s.up_pressed_testBit]

/-- C5 witness: the Plus clause of `direction_spec` at a state with only
Right pressed (value 16 = bit 4). -/
theorem direction_spec_witness :
    (KeyInput.mk 16).column_direction = TriBool.Plus :=
  (direction_spec ⟨16⟩).1 (by decide)

/-- C6: the default `KeyInterruptSetting` is the all-zero value: interrupt
disabled, OR mode, and no button participation bit set. -/
theorem keyinterrupt_default_spec :
    KeyInterruptSetting.default.irq_enabled = false ∧
    KeyInterruptSetting.default.irq_logical_and = false ∧
    KeyInterruptSetting.default.a_pressed = false ∧
    KeyInterruptSetting.default.b_pressed = false ∧
    KeyInterruptSetting.default.select_pressed = false ∧
    KeyInterruptSetting.default.start_pressed = false ∧
    KeyInterruptSetting.default.right_pressed = false ∧
    KeyInterruptSetting.default.left_pressed = false ∧
    KeyInterruptSetting.default.up_pressed = false ∧
    KeyInterruptSetting.default.down_pressed = false ∧
    KeyInterruptSetting.default.r_pressed = false ∧
    KeyInterruptSetting.default.l_pressed = false := by
  decide

/-- C7: for every 16-bit `KeyInterruptSetting` and every button, setting
that button's participation bit to true makes its getter read true,
setting it to false makes its getter read false, and either write leaves
`irq_enabled`, `irq_logical_and` and every other button's participation
bit unchanged. -/
theorem set_button_spec (c : KeyInterruptSetting) (b : Button) (tf : Bool)
    (hc : c.val < 65536) :
    ((c.set_button b true).button_pressed b = true) ∧
    ((c.set_button b false).button_pressed b = false) ∧
    ((c.set_button b tf).irq_enabled = c.irq_enabled) ∧
    ((c.set_button b tf).irq_logical_and = c.irq_logical_and) ∧
    (∀ b2 : Button, b2 ≠ b →
      (c.set_button b tf).button_pressed b2 = c.button_pressed b2) := by
  have hb10 : b.bit < 10 := button_bit_lt_10 b
  refine ⟨?_, ?_, ?_, ?_, ?_⟩
  · rw [set_button_eq_set, button_pressed_eq_get]
    exact register_bit_set_get_same c.val b.bit true (by omega)
  · rw [set_button_eq_set, button_pressed_eq_get]
    exact register_bit_set_get_same c.val b.bit false (by omega)
  · rw [set_button_eq_set, KeyInterruptSetting.irq_enabled_testBit,
      KeyInterruptSetting.irq_enabled_testBit]
    exact register_bit_set_frame c.val b.bit 14 tf hc (by omega)
  · rw [set_button_eq_set, KeyInterruptSetting.irq_logical_and_testBit,
      KeyInterruptSetting.irq_logical_and_testBit]
    exact register_bit_set_frame c.val b.bit 15 tf hc (by omega)
  · intro b2 hb2
    rw [set_button_eq_set, KeyInterruptSetting.button_pressed_testBit,
      KeyInterruptSetting.button_pressed_testBit]
    exact register_bit_set_frame c.val b.bit b2.bit tf hc
      (fun e => hb2 (button_bit_inj b2 b e.symm))

/-- C7 witness: `set_button_spec` at the all-zero setting with button A:
A's getter reads true after the write and B's bit is untouched. -/
theorem set_button_spec_witness :
    ((KeyInterruptSetting.mk 0).set_button Button.A true).button_pressed Button.A = true ∧
    ((KeyInterruptSetting.mk 0).set_button Button.A true).button_pressed Button.B =
      (KeyInterruptSetting.mk 0).button_pressed Button.B :=
  ⟨(set_button_spec ⟨0⟩ Button.A true (by decide)).1,
   (set_button_spec ⟨0⟩ Button.A true (by decide)).2.2.2.2 Button.B (by decide)⟩

/-- C8: starting from the default and setting A participation, B
participation, AND mode and the enable bit yields the exact 16-bit
encoding `0b1100000000000011` = `0xC003`. -/
theorem interrupt_condition_encoding :
    ((((KeyInterruptSetting.default.set_a_pressed true).set_b_pressed
        true).set_irq_logical_and true).set_irq_enabled true).val =
      0b1100000000000011 := by
  decide

/-- C9: `difference` with one original snapshot undoes a previously
computed `difference` (XOR cancellation): `(x ⊕ y) ⊕ y = x`. -/
theorem difference_cancel (x y : KeyInput) :
    (x.difference y).difference y = x := by
  show (⟨(x.val ^^^ y.val) ^^^ y.val⟩ : KeyInput) = x
  rw [Nat.xor_cancel_right]

/-- C10: `column_direction` depends only on bits 4 and 5 of the value and
`row_direction` only on bits 6 and 7: states agreeing on those bits get
the same directional reading, whatever the other buttons do. -/
theorem direction_depends_only_on_axis_bits (s t : KeyInput) :
    (s.val.testBit 4 = t.val.testBit 4 → s.val.testBit 5 = t.val.testBit 5 →
      s.column_direction = t.column_direction) ∧
    (s.val.testBit 6 = t.val.testBit 6 → s.val.testBit 7 = t.val.testBit 7 →
      s.row_direction = t.row_direction) := by
  constructor
  · intro h4 h5
    rw [KeyInput.column_direction, KeyInput.column_direction,
      s.right_pressed_testBit, t.right_pressed_testBit,
      s.left_pressed_testBit, t.left_pressed_testBit, h4, h5]
  · intro h6 h7
    rw [KeyInput.row_direction, KeyInput.row_direction,
      s.down_pressed_testBit, t.down_pressed_testBit,
      s.up_pressed_testBit, t.up_pressed_testBit, h6, h7]

/-- C10 witness: the column clause at the states with values 0 and 1,
which agree on bits 4 and 5. -/
theorem direction_depends_only_on_axis_bits_witness :
    (KeyInput.mk 0).column_direction = (KeyInput.mk 1).column_direction :=
  (direction_depends_only_on_axis_bits ⟨0⟩ ⟨1⟩).1 (by decide) (by decide)
